import Mathlib

/-!
Verification development for the BattleBottle AI backend (`app.py`).

The backend is a Flask application over SQLite with three tables
(`simulations`, `scenario_stats`, `custom_defense_stats`), an ingest
endpoint (`submit_simulation`), a recommendation endpoint
(`get_recommendations`) backed by an optional external LLM call
(`call_groq_llama` / `generate_ai_recommendations`) and deterministic
fallback rules (`get_fallback_units` / `get_fallback_positions` /
`get_fallback_notes`).

The shallow embedding below models the database as in-memory lists of
rows, one structure per table, and each endpoint as a pure function on
that state.  External effects (the HTTP body of the Groq call and the
host JSON library) are modelled as parameters: `network : Option String`
is the body text of the LLM response (`none` = no response: network
error or timeout, i.e. the `except` branch), and
`parse : List Char → Option AiRecs` stands for `json.loads` applied to
the extracted brace-delimited fragment (`none` = `JSONDecodeError`).
All control flow of the source is embedded exactly.
-/

namespace BattleBottle

/-- One element of the `allies` array of an ingest payload
(`{id, name, category, cost, x, y, hp, maxHp, kills, damageDealt}`).
The backend stores this array verbatim (`json.dumps`); it never reads
the fields on the write path. -/
structure Ally where
  id : String
  name : String
  cat : String
  cost : Int
  x : Int
  y : Int
  hp : Int
  maxHp : Int
  kills : Int
  damageDealt : Int
deriving DecidableEq, Repr

/-- One element of the `enemies` array of an ingest payload
(`{id, name, hp, maxHp}`), stored verbatim. -/
structure Enemy where
  id : String
  name : String
  hp : Int
  maxHp : Int
deriving DecidableEq, Repr

/-- The JSON body of a `POST /api/submit` request.  Every field is
optional: the handler reads each one with `data.get(key, default)`. -/
structure Payload where
  session_id : Option String
  map : Option String
  enemy : Option String
  budget : Option Int
  spent : Option Int
  result : Option String
  timer : Option Int
  allies : Option (List Ally)
  enemies : Option (List Enemy)
  initialPositions : Option (List (String × Int × Int))
  mode : Option String
  customMapName : Option String
deriving DecidableEq, Repr

/-- A row of the `simulations` table, as written by the single
`INSERT INTO simulations` of `submit_simulation`.  `created_at` is the
`CURRENT_TIMESTAMP` column; the embedding uses the insertion index of
the row as its clock, which is monotone over the append-only table. -/
structure SimRow where
  session_id : String
  map : String
  enemy : String
  budget : Int
  spent : Int
  result : String
  timer : Int
  allies : List Ally
  enemies : List Enemy
  initial_positions : List (String × Int × Int)
  mode : String
  custom_map_name : String
  created_at : Nat
deriving DecidableEq, Repr

/-- A row of the `scenario_stats` table (UNIQUE on
`(map, enemy, budget_tier)`).  `avg_time` and `best_compositions` are
declared in the schema but never written or read by any handler, so
they are omitted. -/
structure StatsRow where
  map : String
  enemy : String
  budget_tier : String
  total_battles : Nat
  victories : Nat
deriving DecidableEq, Repr

/-- A row of the `custom_defense_stats` table (UNIQUE on `(map, enemy)`).
`avg_units_used` is a SQLite REAL; it is modelled with exact rationals. -/
structure DefRow where
  map : String
  enemy : String
  total_tests : Nat
  defenses_held : Nat
  avg_units_used : Rat
deriving DecidableEq, Repr

/-- The whole SQLite database: the three tables created by `init_db`. -/
structure Db where
  simulations : List SimRow
  scenario_stats : List StatsRow
  custom_defense_stats : List DefRow
deriving DecidableEq, Repr

/-- The freshly initialised database (`init_db` creates empty tables). -/
def emptyDb : Db := ⟨[], [], []⟩

/-- Column list of the `simulations` table, from the `CREATE TABLE`
statement in `init_db`. -/
def simulation_columns : List String :=
  ["id", "session_id", "map", "enemy", "budget", "spent", "result",
   "timer", "allies", "enemies", "initial_positions", "mode",
   "custom_map_name", "created_at"]

/-- Column list of the `scenario_stats` table, from the `CREATE TABLE`
statement in `init_db`. -/
def scenario_stats_columns : List String :=
  ["id", "map", "enemy", "budget_tier", "total_battles", "victories",
   "avg_time", "best_compositions", "updated_at"]

/-- `get_budget_tier(budget)` — categorize budget into tiers for
aggregation. -/
def get_budget_tier (budget : Int) : String :=
  if budget < 1000000 then "low"
  else if budget < 3000000 then "medium"
  else if budget < 5000000 then "high"
  else "unlimited"

/-- The row inserted into `simulations` by `submit_simulation` for a
payload: each column is the corresponding `data.get(...)` with its
default (`''` for strings, `0` for numbers, `[]`/1 for the dumped JSON
arrays, `'standard'` for `mode`). -/
def rowOfPayload (data : Payload) (now : Nat) : SimRow :=
  { session_id := data.session_id.getD ""
    map := data.map.getD ""
    enemy := data.enemy.getD ""
    budget := data.budget.getD 0
    spent := data.spent.getD 0
    result := data.result.getD ""
    timer := data.timer.getD 0
    allies := data.allies.getD []
    enemies := data.enemies.getD []
    initial_positions := data.initialPositions.getD []
    mode := data.mode.getD "standard"
    custom_map_name := data.customMapName.getD ""
    created_at := now }

/-- The `INSERT INTO scenario_stats ... ON CONFLICT(map, enemy,
budget_tier) DO UPDATE` upsert: if a row with the key exists, increment
`total_battles` by 1 and `victories` by `v`; otherwise insert a fresh
row `(1, v)`. -/
def upsertStats (m e t : String) (v : Nat) : List StatsRow → List StatsRow
  | [] => [⟨m, e, t, 1, v⟩]
  | r :: rs =>
      if r.map == m && r.enemy == e && r.budget_tier == t then
        { r with total_battles := r.total_battles + 1,
                 victories := r.victories + v } :: rs
      else r :: upsertStats m e t v rs

/-- The `INSERT INTO custom_defense_stats ... ON CONFLICT(map, enemy)
DO UPDATE` upsert, with the running mean
`avg_units_used = (avg_units_used * total_tests + n) / (total_tests + 1)`. -/
def upsertDef (m e : String) (v n : Nat) : List DefRow → List DefRow
  | [] => [⟨m, e, 1, v, (n : Rat)⟩]
  | r :: rs =>
      if r.map == m && r.enemy == e then
        { r with total_tests := r.total_tests + 1,
                 defenses_held := r.defenses_held + v,
                 avg_units_used :=
                   (r.avg_units_used * (r.total_tests : Rat) + (n : Rat)) /
                     ((r.total_tests : Rat) + 1) } :: rs
      else r :: upsertDef m e v n rs

/-- `submit_simulation` (`POST /api/submit`): store the raw payload as
one `simulations` row, then upsert the `(map, enemy, budget_tier)`
scenario aggregate, and when `mode == 'custom_defense'` also the
`(map, enemy)` defense aggregate.  No field of the payload is validated:
every missing field takes its `data.get` default and the write always
proceeds.  (The AI feedback generated afterwards only produces response
text; it does not touch the database.) -/
def submit_simulation (db : Db) (data : Payload) : Db :=
  let mode := data.mode.getD "standard"
  let row := rowOfPayload data db.simulations.length
  let budget_tier := get_budget_tier (data.budget.getD 0)
  let map_name := data.map.getD ""
  let enemy_type := data.enemy.getD ""
  let victory : Nat := if data.result == some "victory" then 1 else 0
  let num_units := (data.allies.getD []).length
  { simulations := db.simulations ++ [row]
    scenario_stats := upsertStats map_name enemy_type budget_tier victory
      db.scenario_stats
    custom_defense_stats :=
      if mode == "custom_defense" then
        upsertDef map_name enemy_type victory num_units db.custom_defense_stats
      else db.custom_defense_stats }

/-- A sequence of ingests, oldest first. -/
def ingest_all (db : Db) (ps : List Payload) : Db :=
  ps.foldl submit_simulation db

/-! ### The recommendation read path (`GET /api/recommend`) -/

/-- The `WHERE map = ? AND enemy = ?` filter of the history query. -/
def scenario_battles (db : Db) (map_name enemy_type : String) : List SimRow :=
  db.simulations.filter (fun r => r.map == map_name && r.enemy == enemy_type)

/-- `ORDER BY created_at DESC`: most recent first. -/
def byRecency (a b : SimRow) : Prop := b.created_at ≤ a.created_at

instance : DecidableRel byRecency := fun a b =>
  inferInstanceAs (Decidable (b.created_at ≤ a.created_at))

instance : IsTotal SimRow byRecency :=
  ⟨fun a b => Nat.le_total b.created_at a.created_at⟩

instance : IsTrans SimRow byRecency :=
  ⟨fun _ _ _ h1 h2 => Nat.le_trans h2 h1⟩

/-- The scenario's battles ordered by `created_at DESC` (the `SELECT *
FROM simulations WHERE map = ? AND enemy = ? ORDER BY created_at DESC`
query before its `LIMIT`). -/
def scenario_sorted (db : Db) (map_name enemy_type : String) : List SimRow :=
  List.insertionSort byRecency (scenario_battles db map_name enemy_type)

/-- The `historical` list fetched by `get_recommendations`: the above
query with `LIMIT 50`. -/
def historical (db : Db) (map_name enemy_type : String) : List SimRow :=
  (scenario_sorted db map_name enemy_type).take 50

/-- `BASE_SIMULATION_COUNT` — base simulation count (shown in UI as
starting point). -/
def BASE_SIMULATION_COUNT : Nat := 120

/-- Python's `round` on an exact value: round half to even. -/
def pyRound (q : Rat) : Int :=
  let f := Int.floor q
  let r := q - (f : Rat)
  if r < 1 / 2 then f
  else if 1 / 2 < r then f + 1
  else if f % 2 = 0 then f else f + 1

/-- One `specific_units` entry (`{name, count, reason}`). -/
structure UnitRec where
  name : String
  count : Nat
  reason : String
deriving DecidableEq, Repr

/-- One deployment zone (`{x, y, description}`). -/
structure Zone where
  x : Int
  y : Int
  description : String
deriving DecidableEq, Repr

/-- The structured recommendation extracted from the LLM response body:
the four fields `get_recommendations` reads with `ai_recs.get(...)`. -/
structure AiRecs where
  specific_units : List UnitRec
  deployment_zones : List (String × Zone)
  tactical_notes : List String
  priority_targets : List String
deriving DecidableEq, Repr

/-- The opening brace character. -/
def braceL : Char := Char.ofNat 123

/-- The closing brace character. -/
def braceR : Char := Char.ofNat 125

/-- Python's `str.find` for a single character: first index, `-1` if
absent. -/
def pyFind (cs : List Char) (c : Char) : Int :=
  match cs.findIdx? (· == c) with
  | some i => (i : Int)
  | none => -1

/-- Python's `str.rfind` for a single character: last index, `-1` if
absent. -/
def pyRfind (cs : List Char) (c : Char) : Int :=
  match cs.reverse.findIdx? (· == c) with
  | some i => (cs.length : Int) - 1 - (i : Int)
  | none => -1

/-- The JSON-fragment extraction of `generate_ai_recommendations`:
`json_start = response.find('{')`, `json_end = response.rfind('}') + 1`;
the slice `response[json_start:json_end]` when
`json_start >= 0 and json_end > json_start`, else nothing (which makes
the function return `None`). -/
def extract_json (s : String) : Option (List Char) :=
  let cs := s.data
  let json_start := pyFind cs braceL
  let json_end := pyRfind cs braceR + 1
  if 0 ≤ json_start ∧ json_start < json_end then
    some ((cs.drop json_start.toNat).take (json_end - json_start).toNat)
  else none

/-- `call_groq_llama(prompt, max_tokens)`: returns `None` when no
`GROQ_API_KEY` is configured (`if not GROQ_API_KEY`), and `None` when
the HTTP request raises (network error, timeout — the `except` branch);
otherwise the response text.  The prompt and generation parameters only
travel to the external service, so the outcome of the HTTP exchange is
the parameter `network`. -/
def call_groq_llama (apiKey : String) (network : Option String) :
    Option String :=
  if apiKey = "" then none else network

/-- `generate_ai_recommendations(map_name, enemy_type, budget,
historical_data)`: build the prompt from the historical data (sent to
the external service, hence not observable here), call the LLM, extract
the brace-delimited fragment and `json.loads` it (`parse`); any failure
— no response, no JSON-looking fragment, or a `JSONDecodeError` —
yields `None`. -/
def generate_ai_recommendations (parse : List Char → Option AiRecs)
    (map_name enemy_type : String) (budget : Int)
    (historical_data : List SimRow) (apiKey : String)
    (network : Option String) : Option AiRecs :=
  match call_groq_llama apiKey network with
  | none => none
  | some llama_response =>
      match extract_json llama_response with
      | some frag => parse frag
      | none => none

/-- `get_fallback_units(enemy_type, budget)` — rule-based unit
recommendations when AI is unavailable. -/
def get_fallback_units (enemy_type : String) (budget : Int) :
    List UnitRec :=
  let units : List UnitRec :=
    if budget ≥ 500000 then
      [⟨"RQ-11 Raven", 2, "Reliable recon platform"⟩]
    else []
  if enemy_type = "guerrilla" then
    units ++ [⟨"Custom FPV Drone", 15, "Effective against infantry swarms"⟩,
      ⟨"Switchblade 300", 8, "Precision anti-infantry"⟩]
  else if enemy_type = "mercenary" then
    units ++ [⟨"Raytheon Coyote", 5, "Counter fast targets"⟩,
      ⟨"Switchblade 300", 10, "Rapid elimination"⟩,
      ⟨"Custom FPV Drone", 8, "Backup firepower"⟩]
  else
    units ++ [⟨"Anduril Anvil", 4, "Counter-drone capability"⟩,
      ⟨"Switchblade 600", 5, "Heavy strike power"⟩,
      ⟨"Switchblade 300", 6, "Anti-infantry support"⟩,
      ⟨"Custom FPV Drone", 12, "Swarm assault"⟩]

/-- `get_fallback_positions(map_name)` — rule-based positioning
recommendations (the same dictionary for every map). -/
def get_fallback_positions (map_name : String) : List (String × Zone) :=
  [("recon", ⟨50, 85, "Center rear for maximum coverage"⟩),
   ("attack", ⟨30, 90, "Left flank approach"⟩),
   ("defense", ⟨70, 90, "Right side protection"⟩)]

/-- The `notes` dictionary of `get_fallback_notes`. -/
def fallback_notes_table : List (String × List String) :=
  [("army", ["Focus on counter-drone operations first",
             "Expect organized resistance with drone support"]),
   ("guerrilla", ["Spread FPV swarm wide to catch scattered infantry",
                  "Infantry will use cover effectively"]),
   ("mercenary", ["Defense line MUST intercept fast movers early",
                  "Expect aggressive flanking maneuvers"])]

/-- `get_fallback_notes(enemy_type)` — rule-based tactical notes:
`notes.get(enemy_type, ['Assess threat before committing forces'])`. -/
def get_fallback_notes (enemy_type : String) : List String :=
  match fallback_notes_table.lookup enemy_type with
  | some n => n
  | none => ["Assess threat before committing forces"]

/-- The JSON object returned by `get_recommendations`, with the fields
the handler actually sets.  `priority_targets` is only present in the
AI-enhanced branch; `recommend_response_keys` records the exact key
set. -/
structure RecResponse where
  data_points : Nat
  overall_win_rate : Int
  ai_enhanced : Bool
  simulation_count : Nat
  specific_units : List UnitRec
  deployment_zones : List (String × Zone)
  tactical_notes : List String
  priority_targets : List String
deriving DecidableEq, Repr

/-- The keys of the JSON response built by `get_recommendations`: the
four scalar keys of the initial `response` dictionary, then either the
four AI keys (when `ai_recs` parsed) or the three fallback keys. -/
def recommend_response_keys (ai_enhanced : Bool) : List String :=
  ["data_points", "overall_win_rate", "ai_enhanced", "simulation_count"] ++
    (if ai_enhanced then
      ["specific_units", "deployment_zones", "tactical_notes",
       "priority_targets"]
     else ["specific_units", "deployment_zones", "tactical_notes"])

/-- `get_recommendations` (`POST /api/recommend`): fetch the historical
window (`LIMIT 50`), look up the `(map, enemy, budget_tier)` aggregate
row, compute `data_points = len(historical)` and
`overall_win_rate = round(wins/total*100)` (0 without data), call the
LLM pipeline, and fill the response from the parsed AI output when it
exists, from the three fallback rules otherwise, tagging the branch in
`ai_enhanced`.  `simulation_count = BASE_SIMULATION_COUNT +
data_points * 3` in both branches. -/
def get_recommendations (parse : List Char → Option AiRecs) (db : Db)
    (map_name enemy_type : String) (budget : Int) (apiKey : String)
    (network : Option String) : RecResponse :=
  let budget_tier := get_budget_tier budget
  let hist := historical db map_name enemy_type
  let stats := db.scenario_stats.find? (fun r =>
    r.map == map_name && r.enemy == enemy_type &&
      r.budget_tier == budget_tier)
  let data_points := hist.length
  let overall_win_rate : Int :=
    match stats with
    | some s =>
        if s.total_battles > 0 then
          pyRound (((s.victories : Rat) / (s.total_battles : Rat)) * 100)
        else 0
    | none => 0
  let ai_recs := generate_ai_recommendations parse map_name enemy_type
    budget hist apiKey network
  match ai_recs with
  | some recs =>
      { data_points := data_points
        overall_win_rate := overall_win_rate
        ai_enhanced := true
        simulation_count := BASE_SIMULATION_COUNT + data_points * 3
        specific_units := recs.specific_units
        deployment_zones := recs.deployment_zones
        tactical_notes := recs.tactical_notes
        priority_targets := recs.priority_targets }
  | none =>
      { data_points := data_points
        overall_win_rate := overall_win_rate
        ai_enhanced := false
        simulation_count := BASE_SIMULATION_COUNT + data_points * 3
        specific_units := get_fallback_units enemy_type budget
        deployment_zones := get_fallback_positions map_name
        tactical_notes := get_fallback_notes enemy_type
        priority_targets := [] }

/-! ### Composition signature (spec-modelled) -/

/-- Modelled from the spec: the repository's source contains no
composition-signature function (no canonicalization of deployed units
appears anywhere in `app.py`).  The spec defines the signature as "a
canonical string built from the sorted multiset of (category, name)
pairs of a battle's deployments"; this definition follows those words:
encode each deployment as `category:name`, sort, and join. -/
def composition_signature (units : List (String × String)) : String :=
  String.intercalate "|"
    (List.insertionSort (· ≤ ·)
      (units.map (fun p => p.1 ++ ":" ++ p.2)))

/-! ### Theorems -/

/-- C9: `get_budget_tier` is a pure step function of the budget with
boundaries: below 1,000,000 → "low"; from 1,000,000 up to (excluding)
3,000,000 → "medium"; from 3,000,000 up to (excluding) 5,000,000 →
"high"; 5,000,000 or more → "unlimited". -/
theorem budget_tier_step (b : Int) :
    (b < 1000000 → get_budget_tier b = "low") ∧
    (1000000 ≤ b ∧ b < 3000000 → get_budget_tier b = "medium") ∧
    (3000000 ≤ b ∧ b < 5000000 → get_budget_tier b = "high") ∧
    (5000000 ≤ b → get_budget_tier b = "unlimited") := by
  refine ⟨fun h => ?_, fun h => ?_, fun h => ?_, fun h => ?_⟩ <;>
    simp only [get_budget_tier] <;> split_ifs <;> first | rfl | omega

/-- C9 witness: the six boundary inputs named by the claim
(999,999 → low, 1,000,000 → medium, 2,999,999 → medium,
3,000,000 → high, 4,999,999 → high, 5,000,000 → unlimited). -/
theorem budget_tier_step_boundaries :
    get_budget_tier 999999 = "low" ∧ get_budget_tier 1000000 = "medium" ∧
    get_budget_tier 2999999 = "medium" ∧ get_budget_tier 3000000 = "high" ∧
    get_budget_tier 4999999 = "high" ∧
    get_budget_tier 5000000 = "unlimited" :=
  ⟨(budget_tier_step 999999).1 (by decide),
   (budget_tier_step 1000000).2.1 ⟨by decide, by decide⟩,
   (budget_tier_step 2999999).2.1 ⟨by decide, by decide⟩,
   (budget_tier_step 3000000).2.2.1 ⟨by decide, by decide⟩,
   (budget_tier_step 4999999).2.2.1 ⟨by decide, by decide⟩,
   (budget_tier_step 5000000).2.2.2 (by decide)⟩

/-- C7: the Fallback Rule Engine is total over any input string: for
every enemy-type string outside the fallback table
(`army`/`guerrilla`/`mercenary`, the keys of the `notes` dictionary),
it returns the generic defaults — the single default tactical note, the
generic (`else`-branch) baseline unit list, which coincides with the
one for "army", and the fixed deployment centroids — without failing. -/
theorem fallback_engine_total (e m : String) (b : Int)
    (h : e ∉ ["army", "guerrilla", "mercenary"]) :
    get_fallback_notes e = ["Assess threat before committing forces"] ∧
    get_fallback_units e b = get_fallback_units "army" b ∧
    get_fallback_positions m = get_fallback_positions "army" := by
  simp only [List.mem_cons, List.not_mem_nil, or_false, not_or] at h
  obtain ⟨h1, h2, h3⟩ := h
  refine ⟨?_, ?_, rfl⟩
  · have b1 : (e == "army") = false := beq_eq_false_iff_ne.mpr h1
    have b2 : (e == "guerrilla") = false := beq_eq_false_iff_ne.mpr h2
    have b3 : (e == "mercenary") = false := beq_eq_false_iff_ne.mpr h3
    simp [get_fallback_notes, fallback_notes_table, List.lookup, b1, b2, b3]
  · simp [get_fallback_units, h2, h3]

/-- C7 witness: the unrecognized enemy type "alien" with a 600,000
budget resolves to the default note and the generic unit list. -/
theorem fallback_engine_total_alien :
    get_fallback_notes "alien" =
      ["Assess threat before committing forces"] ∧
    get_fallback_units "alien" 600000 = get_fallback_units "army" 600000 ∧
    get_fallback_positions "sector9" = get_fallback_positions "army" :=
  fallback_engine_total "alien" "sector9" 600000 (by decide)

/-- C3: the composition-signature function is order-independent: two
battles whose deployed `(category, name)` multisets agree yield the
same signature string, whatever the recording order. -/
theorem composition_signature_order_independent
    (l1 l2 : List (String × String)) (h : l1.Perm l2) :
    composition_signature l1 = composition_signature l2 := by
  unfold composition_signature
  congr 1
  exact List.eq_of_perm_of_sorted
    (((List.perm_insertionSort _ _).trans (h.map _)).trans
      (List.perm_insertionSort _ _).symm)
    (List.sorted_insertionSort _ _) (List.sorted_insertionSort _ _)

/-- C3 witness: the same three deployed units recorded in two different
orders yield the same signature. -/
theorem composition_signature_order_independent_example :
    composition_signature
      [("recon", "RQ-11 Raven"), ("attack", "Switchblade 300"),
       ("attack", "Custom FPV Drone")] =
    composition_signature
      [("attack", "Custom FPV Drone"), ("recon", "RQ-11 Raven"),
       ("attack", "Switchblade 300")] :=
  composition_signature_order_independent _ _ (by decide)

/-! ### Concrete fixtures -/

/-- The ally list of the claim-C1 scenario: 2 recon + 3 attack units,
all surviving (`hp > 0`). -/
def c1_allies : List Ally :=
  [⟨"a1", "RQ-11 Raven", "recon", 35000, 20, 80, 100, 100, 0, 0⟩,
   ⟨"a2", "RQ-11 Raven", "recon", 35000, 80, 80, 100, 100, 0, 0⟩,
   ⟨"a3", "Switchblade 300", "attack", 6000, 30, 90, 100, 100, 1, 150⟩,
   ⟨"a4", "Switchblade 300", "attack", 6000, 50, 90, 100, 100, 1, 150⟩,
   ⟨"a5", "Custom FPV Drone", "attack", 500, 70, 90, 100, 100, 0, 50⟩]

/-- The enemy list of the claim-C1 scenario: 2 of 2 enemies killed
(`hp = 0`). -/
def c1_enemies : List Enemy :=
  [⟨"e1", "Infantry", 0, 100⟩, ⟨"e2", "Infantry", 0, 100⟩]

/-- The claim-C1 ingest payload: a victory on map "gaza" vs "army",
spent 500,000 of a 2,000,000 budget. -/
def c1_payload : Payload :=
  { session_id := some "s1", map := some "gaza", enemy := some "army",
    budget := some 2000000, spent := some 500000,
    result := some "victory", timer := some 120,
    allies := some c1_allies, enemies := some c1_enemies,
    initialPositions := some [], mode := none, customMapName := none }

/-- An ingest payload with the `map` field missing (and no numeric
fields). -/
def c5_payload : Payload :=
  { session_id := none, map := none, enemy := some "army",
    budget := none, spent := none, result := some "victory",
    timer := none, allies := none, enemies := none,
    initialPositions := none, mode := none, customMapName := none }

/-- The fully-empty ingest payload: every optional field absent. -/
def c5_empty_payload : Payload :=
  { session_id := none, map := none, enemy := none, budget := none,
    spent := none, result := none, timer := none, allies := none,
    enemies := none, initialPositions := none, mode := none,
    customMapName := none }

/-! ### C1 -/

/-- C1 counterexample: the ingest does not derive or record
`survival_rate`, `cost_per_kill` or `kill_efficiency`.  No column of
the `simulations` table or of the `scenario_stats` table stores any of
them, and the row written for the claim's own scenario (the "gaza" vs
"army" victory with 2 recon + 3 attack surviving allies, spent 500,000,
2 of 2 enemies killed) is exactly the raw payload — no metric appears
in it.  (No metric derivation exists anywhere in `app.py`: the only
per-battle arithmetic, in `generate_post_battle_feedback`, feeds prompt
text to the external LLM and stores nothing.) -/
theorem ingest_records_no_metrics :
    "survival_rate" ∉ simulation_columns ∧
    "cost_per_kill" ∉ simulation_columns ∧
    "kill_efficiency" ∉ simulation_columns ∧
    "survival_rate" ∉ scenario_stats_columns ∧
    "cost_per_kill" ∉ scenario_stats_columns ∧
    "kill_efficiency" ∉ scenario_stats_columns ∧
    (submit_simulation emptyDb c1_payload).simulations =
      [{ session_id := "s1", map := "gaza", enemy := "army",
         budget := 2000000, spent := 500000, result := "victory",
         timer := 120, allies := c1_allies, enemies := c1_enemies,
         initial_positions := [], mode := "standard",
         custom_map_name := "", created_at := 0 }] := by
  refine ⟨by decide, by decide, by decide, by decide, by decide,
    by decide, ?_⟩
  rfl

/-- C1 amended: ingesting the claim's scenario stores one raw
`simulations` row — the payload fields verbatim, with defaults for the
absent `mode`/`customMapName` — and bumps the
`("gaza", "army", "medium")` scenario aggregate to one battle and one
victory; no scalar metric (`survival_rate`, `cost_per_kill`,
`kill_efficiency`) is computed or persisted anywhere in the write
path. -/
theorem ingest_stores_raw_payload :
    (submit_simulation emptyDb c1_payload).simulations =
      [rowOfPayload c1_payload 0] ∧
    (submit_simulation emptyDb c1_payload).scenario_stats =
      [⟨"gaza", "army", "medium", 1, 1⟩] ∧
    (submit_simulation emptyDb c1_payload).custom_defense_stats = [] ∧
    (rowOfPayload c1_payload 0).spent = 500000 ∧
    (rowOfPayload c1_payload 0).result = "victory" ∧
    (rowOfPayload c1_payload 0).allies = c1_allies := by
  refine ⟨rfl, ?_, rfl, rfl, rfl, rfl⟩
  decide

/-! ### C5 -/

/-- C5 counterexample: a payload with the `map` field missing is not
rejected: the ingest writes a `simulations` row (with `map = ''`) and
creates a scenario aggregate under the defaulted key, so state does
change. -/
theorem ingest_missing_map_still_writes :
    (submit_simulation emptyDb c5_payload).simulations.length = 1 ∧
    (submit_simulation emptyDb c5_payload).scenario_stats =
      [⟨"", "army", "low", 1, 1⟩] := by
  constructor
  · rfl
  · decide

/-- C5 amended: the ingest validates nothing: every payload — with
`map`, `enemy` or `result` missing included — is written, the absent
fields defaulting to the empty string (numerics to zero), and the
aggregates are updated under the defaulted key. -/
theorem ingest_never_rejects (db : Db) (data : Payload) :
    ((submit_simulation db data).simulations.length =
      db.simulations.length + 1) ∧
    (data.map = none →
      (rowOfPayload data db.simulations.length).map = "") ∧
    (data.enemy = none →
      (rowOfPayload data db.simulations.length).enemy = "") ∧
    (data.result = none →
      (rowOfPayload data db.simulations.length).result = "") := by
  refine ⟨?_, fun h => ?_, fun h => ?_, fun h => ?_⟩
  · simp [submit_simulation]
  all_goals simp [rowOfPayload, h]

/-- C5 witness: the fully-empty payload is accepted and stored with
every string field defaulted to `''`. -/
theorem ingest_never_rejects_empty_payload :
    ((submit_simulation emptyDb c5_empty_payload).simulations.length =
      emptyDb.simulations.length + 1) ∧
    (rowOfPayload c5_empty_payload 0).map = "" ∧
    (rowOfPayload c5_empty_payload 0).enemy = "" ∧
    (rowOfPayload c5_empty_payload 0).result = "" :=
  ⟨(ingest_never_rejects emptyDb c5_empty_payload).1,
   (ingest_never_rejects emptyDb c5_empty_payload).2.1 rfl,
   (ingest_never_rejects emptyDb c5_empty_payload).2.2.1 rfl,
   (ingest_never_rejects emptyDb c5_empty_payload).2.2.2 rfl⟩

/-! ### C2 -/

/-- C2 counterexample: the recommendation response carries no
`confidence` key at all (in neither branch of the response
construction), and the count-like scalar it does return is
`simulation_count`, which is 120 — not 0 — on an empty store and 180 —
not 100 — at 20 data points. -/
theorem recommendation_has_no_confidence :
    "confidence" ∉ recommend_response_keys true ∧
    "confidence" ∉ recommend_response_keys false ∧
    (get_recommendations (fun _ => none) emptyDb "gaza" "army" 2000000
      "" none).simulation_count = 120 ∧
    BASE_SIMULATION_COUNT + 20 * 3 = 180 := by
  refine ⟨by decide, by decide, ?_, rfl⟩
  rfl

/-- C2 amended: the recommendation response has no confidence score;
in both branches it returns
`simulation_count = BASE_SIMULATION_COUNT + data_points * 3`
(120 plus three per historical record), a strictly increasing function
of the sample count that never saturates. -/
theorem simulation_count_formula (parse : List Char → Option AiRecs)
    (db : Db) (m e : String) (b : Int) (key : String)
    (net : Option String) :
    ((get_recommendations parse db m e b key net).simulation_count =
      BASE_SIMULATION_COUNT + (historical db m e).length * 3) ∧
    (∀ n1 n2 : Nat, n1 < n2 →
      BASE_SIMULATION_COUNT + n1 * 3 <
        BASE_SIMULATION_COUNT + n2 * 3) := by
  constructor
  · simp only [get_recommendations]
    split <;> rfl
  · intro n1 n2 h
    omega

/-- C2 witness: on the empty store the count is 120, and one more data
point strictly increases it. -/
theorem simulation_count_formula_empty :
    ((get_recommendations (fun _ => none) emptyDb "gaza" "army" 2000000
        "" none).simulation_count =
      BASE_SIMULATION_COUNT +
        (historical emptyDb "gaza" "army").length * 3) ∧
    BASE_SIMULATION_COUNT + 0 * 3 < BASE_SIMULATION_COUNT + 1 * 3 :=
  ⟨(simulation_count_formula (fun _ => none) emptyDb "gaza" "army"
      2000000 "" none).1,
   (simulation_count_formula (fun _ => none) emptyDb "gaza" "army"
      2000000 "" none).2 0 1 (by decide)⟩

/-! ### C4 -/

/-- A battle of scenario `("m", "e")` whose composition is the single
unit `(attack, Switchblade 300)`, recorded at time `i`. -/
def c4_row (i : Nat) : SimRow :=
  { session_id := "", map := "m", enemy := "e", budget := 0, spent := 0,
    result := "victory", timer := 0,
    allies := [⟨"u1", "Switchblade 300", "attack", 6000, 50, 90, 100,
      100, 0, 0⟩],
    enemies := [], initial_positions := [], mode := "standard",
    custom_map_name := "", created_at := i }

/-- A store in which one composition has exactly 2 samples for the
scenario `("m", "e")`. -/
def c4_db : Db := ⟨[c4_row 0, c4_row 1], [], []⟩

/-- C4 counterexample: the read path keeps no top-K pattern list and
applies no minimum-sample threshold.  The only list it consults for
recommendation ranking is `historical` — the raw recent battles — and
with a composition that has exactly 2 samples, both of its battles
appear there (and are counted in `data_points`), instead of being
excluded as the claimed threshold of 3 would require. -/
theorem two_sample_composition_is_consulted :
    historical c4_db "m" "e" = [c4_row 1, c4_row 0] ∧
    (get_recommendations (fun _ => none) c4_db "m" "e" 2000000 ""
      none).data_points = 2 := by
  constructor
  · decide
  · rfl

/-- C4 amended: the read path has no minimum-sample threshold (and no
pattern list at all): whenever the scenario has at most 50 battles,
every one of its battles — whatever its composition and that
composition's sample count, 2 included — is in the consulted
`historical` window. -/
theorem no_sample_threshold (db : Db) (m e : String)
    (hlen : (scenario_battles db m e).length ≤ 50) (r : SimRow)
    (hr : r ∈ db.simulations) (hm : r.map = m) (he : r.enemy = e) :
    r ∈ historical db m e := by
  have hmem : r ∈ scenario_battles db m e := by
    simp [scenario_battles, List.mem_filter, hr, hm, he]
  have hmem2 : r ∈ scenario_sorted db m e :=
    (List.perm_insertionSort byRecency _).mem_iff.mpr hmem
  have hslen : (scenario_sorted db m e).length ≤ 50 := by
    unfold scenario_sorted
    rw [(List.perm_insertionSort byRecency
      (scenario_battles db m e)).length_eq]
    exact hlen
  unfold historical
  rw [List.take_of_length_le hslen]
  exact hmem2

/-- C4 witness: in the two-sample store, the first battle of the
2-sample composition is consulted by the read path. -/
theorem no_sample_threshold_two_samples :
    c4_row 0 ∈ historical c4_db "m" "e" :=
  no_sample_threshold c4_db "m" "e" (by decide) (c4_row 0) (by decide)
    rfl rfl

/-! ### C6 -/

/-- A minimal battle of scenario `("m", "e")` recorded at time `i`. -/
def c6_row (i : Nat) : SimRow :=
  { session_id := "", map := "m", enemy := "e", budget := 0, spent := 0,
    result := "", timer := 0, allies := [], enemies := [],
    initial_positions := [], mode := "standard", custom_map_name := "",
    created_at := i }

/-- A store holding 60 battles of the scenario `("m", "e")`. -/
def c6_db : Db := ⟨(List.range 60).map c6_row, [], []⟩

/-- C6 counterexample: with 60 battles of the scenario on record, "the
most recent 100 battles for that map+enemy pair" would be all 60, but
the window the code reads (`LIMIT 50`) holds only 50 records. -/
theorem window_is_not_100 :
    (scenario_battles c6_db "m" "e").length = 60 ∧
    (historical c6_db "m" "e").length = 50 := by
  have hfil : scenario_battles c6_db "m" "e" = c6_db.simulations := by
    apply List.filter_eq_self.mpr
    intro a ha
    simp only [c6_db, List.mem_map, List.mem_range] at ha
    obtain ⟨i, _, rfl⟩ := ha
    rfl
  have hlen : (scenario_battles c6_db "m" "e").length = 60 := by
    rw [hfil]; simp [c6_db]
  refine ⟨hlen, ?_⟩
  unfold historical scenario_sorted
  rw [List.length_take,
    (List.perm_insertionSort byRecency _).length_eq, hlen]
  decide

/-- C6 amended: the historical window consulted for a scenario is the
most recent **50** battles for that map+enemy pair (`ORDER BY
created_at DESC LIMIT 50`), not 100: it holds `min 50 n` of the
scenario's `n` battles, and it is the 50-record head of the scenario's
battles sorted most-recent-first, so its records dominate every omitted
one by `created_at`. -/
theorem historical_window_bound (db : Db) (m e : String) :
    (historical db m e).length =
      min 50 (scenario_battles db m e).length ∧
    List.Sorted byRecency (scenario_sorted db m e) ∧
    historical db m e = (scenario_sorted db m e).take 50 := by
  refine ⟨?_, List.sorted_insertionSort byRecency _, rfl⟩
  unfold historical
  rw [List.length_take]
  congr 1
  exact (List.perm_insertionSort byRecency _).length_eq

/-! ### C8 -/

/-- When the LLM pipeline yields nothing, the response equals the
canonical no-advisor response (the one computed with no credential and
no network). -/
theorem rec_of_gen_none (parse : List Char → Option AiRecs) (db : Db)
    (m e : String) (b : Int) (key : String) (net : Option String)
    (hgen : generate_ai_recommendations parse m e b (historical db m e)
      key net = none) :
    get_recommendations parse db m e b key net =
      get_recommendations (fun _ => none) db m e b "" none := by
  have h2 : generate_ai_recommendations (fun _ => none) m e b
      (historical db m e) "" none = none := rfl
  simp only [get_recommendations, hgen, h2]

/-- The LLM pipeline yields nothing when the HTTP exchange produced no
body (network error / timeout). -/
theorem gen_none_of_no_response (parse : List Char → Option AiRecs)
    (m e : String) (b : Int) (hist : List SimRow) (key : String) :
    generate_ai_recommendations parse m e b hist key none = none := by
  unfold generate_ai_recommendations call_groq_llama
  rw [ite_self]

/-- The LLM pipeline yields nothing when the body holds no
brace-delimited fragment. -/
theorem gen_none_of_no_json (parse : List Char → Option AiRecs)
    (m e : String) (b : Int) (hist : List SimRow) (key s : String)
    (hextract : extract_json s = none) :
    generate_ai_recommendations parse m e b hist key (some s) = none := by
  unfold generate_ai_recommendations call_groq_llama
  by_cases hk : key = ""
  · simp [hk]
  · simp [hk, hextract]

/-- The LLM pipeline yields nothing when `json.loads` rejects the
extracted fragment. -/
theorem gen_none_of_bad_json (parse : List Char → Option AiRecs)
    (m e : String) (b : Int) (hist : List SimRow) (key s : String)
    (frag : List Char) (hextract : extract_json s = some frag)
    (hparse : parse frag = none) :
    generate_ai_recommendations parse m e b hist key (some s) = none := by
  unfold generate_ai_recommendations call_groq_llama
  by_cases hk : key = ""
  · simp [hk]
  · simp [hk, hextract, hparse]

/-- C8: every advisor failure mode is non-fatal and leaves the
deterministic recommendation unchanged: with no credential
(`GROQ_API_KEY` empty), with no HTTP response body (network error or
timeout), with a body containing no brace-delimited JSON fragment, or
with a fragment `json.loads` rejects, `get_recommendations` returns
exactly the canonical no-advisor response — which is tagged
`ai_enhanced = false` and is filled from the three fallback rules plus
the scenario statistics. -/
theorem advisor_failure_nonfatal (parse : List Char → Option AiRecs)
    (db : Db) (m e : String) (b : Int) (key s : String)
    (frag : List Char) (net : Option String) :
    (get_recommendations parse db m e b "" net =
      get_recommendations (fun _ => none) db m e b "" none) ∧
    (get_recommendations parse db m e b key none =
      get_recommendations (fun _ => none) db m e b "" none) ∧
    (extract_json s = none →
      get_recommendations parse db m e b key (some s) =
        get_recommendations (fun _ => none) db m e b "" none) ∧
    (extract_json s = some frag → parse frag = none →
      get_recommendations parse db m e b key (some s) =
        get_recommendations (fun _ => none) db m e b "" none) ∧
    (get_recommendations (fun _ => none) db m e b "" none).ai_enhanced
      = false ∧
    (get_recommendations (fun _ => none) db m e b ""
      none).specific_units = get_fallback_units e b ∧
    (get_recommendations (fun _ => none) db m e b ""
      none).deployment_zones = get_fallback_positions m ∧
    (get_recommendations (fun _ => none) db m e b ""
      none).tactical_notes = get_fallback_notes e ∧
    (get_recommendations (fun _ => none) db m e b "" none).data_points
      = (historical db m e).length :=
  ⟨rec_of_gen_none parse db m e b "" net rfl,
   rec_of_gen_none parse db m e b key none
     (gen_none_of_no_response parse m e b (historical db m e) key),
   fun hx => rec_of_gen_none parse db m e b key (some s)
     (gen_none_of_no_json parse m e b (historical db m e) key s hx),
   fun hx hp => rec_of_gen_none parse db m e b key (some s)
     (gen_none_of_bad_json parse m e b (historical db m e) key s frag
       hx hp),
   rfl, rfl, rfl, rfl, rfl⟩

/-- C8 witness: a body with no JSON object and a body whose only
fragment fails to parse both leave the canonical fallback response,
which is tagged as not AI-enhanced. -/
theorem advisor_failure_nonfatal_cases :
    (get_recommendations (fun _ => none) emptyDb "gaza" "army" 2000000
        "k" (some "no embedded object") =
      get_recommendations (fun _ => none) emptyDb "gaza" "army" 2000000
        "" none) ∧
    (get_recommendations (fun _ => none) emptyDb "gaza" "army" 2000000
        "k" (some (String.mk [braceL, braceR])) =
      get_recommendations (fun _ => none) emptyDb "gaza" "army" 2000000
        "" none) ∧
    (get_recommendations (fun _ => none) emptyDb "gaza" "army" 2000000
        "" none).ai_enhanced = false :=
  ⟨(advisor_failure_nonfatal (fun _ => none) emptyDb "gaza" "army"
      2000000 "k" "no embedded object" [] none).2.2.1 (by decide),
   (advisor_failure_nonfatal (fun _ => none) emptyDb "gaza" "army"
      2000000 "k" (String.mk [braceL, braceR]) [braceL, braceR]
      none).2.2.2.1 (by decide) rfl,
   (advisor_failure_nonfatal (fun _ => none) emptyDb "gaza" "army"
      2000000 "k" "" [] none).2.2.2.2.1⟩

/-! ### C10 -/

/-- The `scenario_stats` row for a `(map, enemy, budget_tier)` key, as
`get_recommendations` looks it up. -/
def stats_for (rows : List StatsRow) (m e t : String) :
    Option StatsRow :=
  rows.find? (fun r =>
    r.map == m && r.enemy == e && r.budget_tier == t)

/-- Effect of the scenario-stats upsert on its own key: the existing
row gains one battle and `v` victories, or a fresh `(1, v)` row is
created. -/
theorem stats_for_upsert (rows : List StatsRow) (m e t : String)
    (v : Nat) :
    stats_for (upsertStats m e t v rows) m e t =
      some (match stats_for rows m e t with
        | some r => { r with total_battles := r.total_battles + 1,
                             victories := r.victories + v }
        | none => ⟨m, e, t, 1, v⟩) := by
  induction rows with
  | nil => simp [stats_for, upsertStats]
  | cons a rs ih =>
    by_cases h : (a.map == m && a.enemy == e && a.budget_tier == t)
      = true
    · simp [stats_for, upsertStats, h, List.find?]
    · have hf : (a.map == m && a.enemy == e && a.budget_tier == t)
        = false := by simpa using h
      simp only [stats_for, upsertStats, hf, Bool.false_eq_true,
        if_false, List.find?]
      simpa [stats_for] using ih

/-- The upsert preserves `victories ≤ total_battles` when the increment
is at most 1. -/
theorem upsert_preserves_inv {rows : List StatsRow} {m e t : String}
    {v : Nat} (hv : v ≤ 1)
    (hrows : ∀ r ∈ rows, r.victories ≤ r.total_battles) :
    ∀ r ∈ upsertStats m e t v rows, r.victories ≤ r.total_battles := by
  induction rows with
  | nil =>
    intro r hr
    simp only [upsertStats, List.mem_singleton] at hr
    subst hr
    simpa using hv
  | cons a rs ih =>
    intro r hr
    simp only [upsertStats] at hr
    split at hr
    · rcases List.mem_cons.mp hr with h | h
      · subst h
        have ha := hrows a (List.mem_cons_self _ _)
        simp only
        omega
      · exact hrows r (List.mem_cons_of_mem _ h)
    · rcases List.mem_cons.mp hr with h | h
      · subst h
        exact hrows r (List.mem_cons_self _ _)
      · exact ih (fun x hx => hrows x (List.mem_cons_of_mem _ hx)) r h

/-- One ingest preserves the scenario-aggregate invariant. -/
theorem submit_preserves_inv {db : Db}
    (h : ∀ r ∈ db.scenario_stats, r.victories ≤ r.total_battles)
    (p : Payload) :
    ∀ r ∈ (submit_simulation db p).scenario_stats,
      r.victories ≤ r.total_battles :=
  upsert_preserves_inv (by split <;> decide) h

/-- Any ingest sequence preserves the scenario-aggregate invariant. -/
theorem ingest_all_preserves_inv (ps : List Payload) :
    ∀ {db : Db},
      (∀ r ∈ db.scenario_stats, r.victories ≤ r.total_battles) →
      ∀ r ∈ (ingest_all db ps).scenario_stats,
        r.victories ≤ r.total_battles := by
  induction ps with
  | nil => intro db h; exact h
  | cons p ps ih =>
    intro db h
    exact ih (submit_preserves_inv h p)

/-- C10: after any sequence of ingests from the fresh store, every
scenario-aggregate row satisfies `victories ≤ total_battles`
(nonnegativity is inherent in ℕ); and a single ingest moves the
payload's `(map, enemy, budget_tier)` row from `(T, V)` to
`(T + 1, V + 1)` exactly when the submitted result equals "victory" and
to `(T + 1, V)` for every other result value (creating the row from
`(0, 0)` when absent) — unrecognized result strings count as
non-victories, not errors. -/
theorem scenario_aggregate_invariant :
    (∀ ps : List Payload,
      ∀ row ∈ (ingest_all emptyDb ps).scenario_stats,
        row.victories ≤ row.total_battles) ∧
    (∀ (db : Db) (p : Payload),
      stats_for (submit_simulation db p).scenario_stats (p.map.getD "")
          (p.enemy.getD "") (get_budget_tier (p.budget.getD 0)) =
        some (match stats_for db.scenario_stats (p.map.getD "")
            (p.enemy.getD "") (get_budget_tier (p.budget.getD 0)) with
          | some r => { r with
              total_battles := r.total_battles + 1,
              victories := r.victories +
                (if p.result = some "victory" then 1 else 0) }
          | none => ⟨p.map.getD "", p.enemy.getD "",
              get_budget_tier (p.budget.getD 0), 1,
              if p.result = some "victory" then 1 else 0⟩)) := by
  constructor
  · intro ps
    exact ingest_all_preserves_inv ps (by intro r hr; cases hr)
  · intro db p
    have hsub : (submit_simulation db p).scenario_stats =
        upsertStats (p.map.getD "") (p.enemy.getD "")
          (get_budget_tier (p.budget.getD 0))
          (if p.result == some "victory" then 1 else 0)
          db.scenario_stats := rfl
    rw [hsub, stats_for_upsert]
    by_cases hres : p.result = some "victory" <;>
      cases hsf : stats_for db.scenario_stats (p.map.getD "")
        (p.enemy.getD "") (get_budget_tier (p.budget.getD 0)) <;>
      simp [hres, hsf]

/-- C10 witness: ingesting the C1 victory payload into the fresh store
creates the `("gaza", "army", "medium")` row with one battle and one
victory, which satisfies the invariant. -/
theorem scenario_aggregate_invariant_example :
    ((⟨"gaza", "army", "medium", 1, 1⟩ : StatsRow).victories ≤
      (⟨"gaza", "army", "medium", 1, 1⟩ : StatsRow).total_battles) ∧
    stats_for (submit_simulation emptyDb c1_payload).scenario_stats
        "gaza" "army" "medium" =
      some ⟨"gaza", "army", "medium", 1, 1⟩ :=
  ⟨scenario_aggregate_invariant.1 [c1_payload] _ (by decide),
   scenario_aggregate_invariant.2 emptyDb c1_payload⟩

end BattleBottle
